import Mathlib

/-!
Verification of the Poco JSON `Object` container (`src/JSON/include/Poco/JSON/Object.h`)
against its natural-language specification.

Shallow embedding conventions:
* `Dynamic::Var` payloads are modelled by the inductive `Var`.  The claims under
  study quantify over objects whose properties are scalar, so `Var` covers the
  scalar leaves (null/empty, bool, integer, string); serialization of nested
  arrays and objects is delegated by the source to the external `Stringifier`
  collaborator, which the specification declares out of scope.
* `std::map<std::string, Var>` is modelled by an association list kept sorted
  by key with unique keys (`values`); `std::deque<Var*>` (the `_keys` order
  sequence of references into map entries) is modelled by the list of the
  referenced keys (`keys`): a reference is live exactly when its key is still
  present in `values`.
* C++ exceptions become `Except ConvErr`; machine integers `unsigned int` /
  `int` become `Nat` / `Int`, with the mixed signed/unsigned comparison
  `indent >= step` of `doStringify` modelled explicitly (a negative `step`
  converts to a huge unsigned value, so the comparison is false).
-/

/-- Scalar payloads of a `Dynamic::Var` (the empty/implicit-null value, bool,
integer, string).  Nested object/array handles are handled by the external
Stringifier collaborator and are not needed by the claims. -/
inductive Var where
  | vEmpty : Var
  | vBool : Bool → Var
  | vInt : Int → Var
  | vStr : String → Var
deriving DecidableEq

/-- `Dynamic::Var::isEmpty()`: true exactly for the empty value. -/
def Var.isEmpty : Var → Bool
  | .vEmpty => true
  | _ => false

/-- Error kinds raised by the conversion adapter: `BadCastException`,
`NotImplementedException` (with its message) and `NullPointerException`
(raised by `SharedPtr::operator->` on a null handle). -/
inductive ConvErr where
  | badCast : ConvErr
  | notImplemented : String → ConvErr
  | nullPointer : ConvErr
deriving DecidableEq

/-- Lexicographic comparison of character lists by code point, the order of
`std::string::operator<`. -/
def charsLt : List Char → List Char → Bool
  | [], [] => false
  | [], _ :: _ => true
  | _ :: _, [] => false
  | a :: as, b :: bs =>
    if a.toNat < b.toNat then true
    else if b.toNat < a.toNat then false
    else charsLt as bs

/-- Lexicographic string comparison, the key order of `std::map<std::string, _>`. -/
def strLt (a b : String) : Bool :=
  charsLt a.data b.data

/-- Insertion into the sorted association list modelling `std::map`
(iteration order of the map is ascending key order). -/
def insertSorted (k : String) (v : Var) : List (String × Var) → List (String × Var)
  | [] => [(k, v)]
  | p :: rest => if strLt k p.1 then (k, v) :: p :: rest else p :: insertSorted k v rest

/-- The JSON `Object`: the authoritative key to value store `_values`
(a sorted map), the `_keys` order sequence of references (modelled by the
referenced keys), and the `_preserveInsOrder` mode flag. -/
structure Object where
  values : List (String × Var)
  keys : List String
  preserveInsOrder : Bool
deriving DecidableEq

/-- Modelled from the spec: the constructor `Object(bool preserveInsertionOrder)`
lives in `Object.cpp`, absent from the sources; per the spec an object is
created empty with the mode flag chosen once. -/
def Object.empty (pio : Bool) : Object :=
  { values := [], keys := [], preserveInsOrder := pio }

/-- `Object::has`: `_values.find(key) != _values.end()`. -/
def Object.has (o : Object) (key : String) : Bool :=
  (List.lookup key o.values).isSome

/-- `Object::isNull`: `it == _values.end() || it->second.isEmpty()`. -/
def Object.isNull (o : Object) (key : String) : Bool :=
  match List.lookup key o.values with
  | none => true
  | some v => v.isEmpty

/-- `Object::size`: the cardinality of `_values`. -/
def Object.size (o : Object) : Nat :=
  o.values.length

/-- `Object::remove`: `_values.erase(key)` — and nothing else; the `_keys`
order sequence is not touched by the source. -/
def Object.remove (o : Object) (key : String) : Object :=
  { o with values := o.values.eraseP (fun p => p.1 == key) }

/-- Modelled from the spec: `Object::set` lives in `Object.cpp`, absent from
the sources.  Per the spec it is insert-or-overwrite: a new key is inserted
into the map and, in insertion-order mode, a reference to the new entry is
appended to the order sequence; an existing key has its value overwritten in
place without touching the order. -/
def Object.set (o : Object) (k : String) (v : Var) : Object :=
  if (List.lookup k o.values).isSome then
    { o with values := o.values.map (fun p => if p.1 == k then (k, v) else p) }
  else
    { values := insertSorted k v o.values,
      keys := if o.preserveInsOrder then o.keys ++ [k] else o.keys,
      preserveInsOrder := o.preserveInsOrder }

/-- The spec invariant on the order sequence: every reference in `_keys`
points to a live entry of `_values`. -/
def Object.refsLive (o : Object) : Bool :=
  o.keys.all (fun k => (List.lookup k o.values).isSome)

/-- `Object::optValue<T>`: start from the default, and only when the key is
found and the stored value is not empty try the conversion, swallowing any
failure.  The conversion `Var::convert<T>` belongs to the external dynamic
value collaborator, so it is a parameter. -/
def Object.optValue {T : Type} (o : Object) (key : String) (defv : T)
    (convert : Var → Except ConvErr T) : T :=
  match List.lookup key o.values with
  | none => defv
  | some v =>
    if v.isEmpty then defv
    else
      match convert v with
      | .ok t => t
      | .error _ => defv

/-- Modelled from the spec: a representative `Var::convert<int>` of the
external dynamic value collaborator — an integer payload converts to itself,
anything else fails with a bad-cast. -/
def varConvertInt : Var → Except ConvErr Int
  | .vInt n => .ok n
  | _ => .error .badCast

/-- A run of space characters, as emitted by `for(int i = 0; i < indent; i++) out << ' '`. -/
def spaces (n : Nat) : String :=
  String.mk (List.replicate n ' ')

/-- The opening brace character emitted by `out << '\x7b'`. -/
def lbrace : String := "\x7b"

/-- The closing brace character emitted by `out << '\x7d'`. -/
def rbrace : String := "\x7d"

/-- Modelled from the spec: the external `Stringifier` collaborator rendering
of a scalar leaf value (null, bool, number, quoted string), which the spec
treats as a given primitive. -/
def renderValue : Var → String
  | .vEmpty => "null"
  | .vBool b => if b then "true" else "false"
  | .vInt n => toString n
  | .vStr s => "\"" ++ s ++ "\""

/-- One iteration of the entry loop of `Object::doStringify`: `indent` spaces,
the quoted key, the separator (`" : "` padded when `indent > 0`, compact `":"`
otherwise), the value, a comma unless the entry is the last, and a newline
when `step > 0`. -/
def entryChunk (indent : Nat) (step : Int) (kv : String × Var) (isLast : Bool) : String :=
  spaces indent ++ "\"" ++ kv.1 ++ "\"" ++ (if 0 < indent then " : " else ":")
    ++ renderValue kv.2 ++ (if isLast then "" else ",") ++ (if 0 < step then "\n" else "")

/-- The entry loop of `Object::doStringify` over the iteration sequence. -/
def renderEntries (indent : Nat) (step : Int) : List (String × Var) → String
  | [] => ""
  | [kv] => entryChunk indent step kv true
  | kv :: kv2 :: rest => entryChunk indent step kv false ++ renderEntries indent step (kv2 :: rest)

/-- The closing-brace indent computed by `if (indent >= step) indent -= step;`
where `indent` is `unsigned int` and `step` is `int`: the comparison converts
`step` to unsigned, so a negative `step` never triggers the subtraction. -/
def closingIndent (indent : Nat) (step : Int) : Nat :=
  if 0 ≤ step ∧ step.toNat ≤ indent then indent - step.toNat else indent

/-- The iteration sequence of `doStringify`: `_values` (ascending key order)
in sorted mode, the `_keys` references in insertion-order mode.  Dereferencing
a reference recovers the entry it points to; a dangling reference (key no
longer in `values`) is undefined behavior in the source and is modelled here
by the empty value. -/
def Object.orderedEntries (o : Object) : List (String × Var) :=
  if o.preserveInsOrder then
    o.keys.map (fun k => (k, (List.lookup k o.values).getD Var.vEmpty))
  else
    o.values

/-- `Object::doStringify`: opening brace, a newline when `indent > 0`, the
entry loop, the closing-brace indent, the closing brace. -/
def Object.doStringify (o : Object) (indent : Nat) (step : Int) : String :=
  lbrace ++ (if 0 < indent then "\n" else "")
    ++ renderEntries indent step o.orderedEntries
    ++ spaces (closingIndent indent step) ++ rbrace

/-- Modelled from the spec: `Object::stringify` lives in `Object.cpp`, absent
from the sources.  Per the spec the per-level `step` defaults (sentinel `-1`)
to a value derived from the caller indent, and dispatch goes to `doStringify`
over the active iteration sequence. -/
def Object.stringify (o : Object) (indent : Nat) (step : Int) : String :=
  o.doStringify indent (if step == -1 then (indent : Int) else step)

/-- The single-line rendering the spec describes for `indentWidth == 0`:
entries as quoted key, compact `":"`, value, separated by commas. -/
def compactEntries : List (String × Var) → String
  | [] => ""
  | [kv] => "\"" ++ kv.1 ++ "\"" ++ ":" ++ renderValue kv.2
  | kv :: kv2 :: rest =>
    "\"" ++ kv.1 ++ "\"" ++ ":" ++ renderValue kv.2 ++ "," ++ compactEntries (kv2 :: rest)

/-- The spec-side compact object rendering: braces around the compact entries. -/
def compactRender (entries : List (String × Var)) : String :=
  lbrace ++ compactEntries entries ++ rbrace

/-- A string free of whitespace characters (space, newline, tab, carriage return). -/
def wsFree (s : String) : Bool :=
  s.data.all (fun c => !(c == ' ' || c == '\n' || c == '\t' || c == '\r'))

/-- `Poco::Dynamic::VarHolderImpl<JSON::Object::Ptr>`: a holder wrapping a
`SharedPtr<Object>` (`none` models the null handle). -/
structure VarHolderImplObjectPtr where
  val : Option Object
deriving DecidableEq

/-- `convert(Int8&)`: `throw BadCastException()`. -/
def VarHolderImplObjectPtr.convertInt8 (_ : VarHolderImplObjectPtr) : Except ConvErr Unit :=
  .error .badCast

/-- `convert(Int16&)`: `throw BadCastException()`. -/
def VarHolderImplObjectPtr.convertInt16 (_ : VarHolderImplObjectPtr) : Except ConvErr Unit :=
  .error .badCast

/-- `convert(Int32&)`: `throw BadCastException()`. -/
def VarHolderImplObjectPtr.convertInt32 (_ : VarHolderImplObjectPtr) : Except ConvErr Unit :=
  .error .badCast

/-- `convert(Int64&)`: `throw BadCastException()`. -/
def VarHolderImplObjectPtr.convertInt64 (_ : VarHolderImplObjectPtr) : Except ConvErr Unit :=
  .error .badCast

/-- `convert(UInt8&)`: `throw BadCastException()`. -/
def VarHolderImplObjectPtr.convertUInt8 (_ : VarHolderImplObjectPtr) : Except ConvErr Unit :=
  .error .badCast

/-- `convert(UInt16&)`: `throw BadCastException()`. -/
def VarHolderImplObjectPtr.convertUInt16 (_ : VarHolderImplObjectPtr) : Except ConvErr Unit :=
  .error .badCast

/-- `convert(UInt32&)`: `throw BadCastException()`. -/
def VarHolderImplObjectPtr.convertUInt32 (_ : VarHolderImplObjectPtr) : Except ConvErr Unit :=
  .error .badCast

/-- `convert(UInt64&)`: `throw BadCastException()`. -/
def VarHolderImplObjectPtr.convertUInt64 (_ : VarHolderImplObjectPtr) : Except ConvErr Unit :=
  .error .badCast

/-- `convert(float&)`: `throw BadCastException()`. -/
def VarHolderImplObjectPtr.convertFloat (_ : VarHolderImplObjectPtr) : Except ConvErr Unit :=
  .error .badCast

/-- `convert(double&)`: `throw BadCastException()`. -/
def VarHolderImplObjectPtr.convertDouble (_ : VarHolderImplObjectPtr) : Except ConvErr Unit :=
  .error .badCast

/-- `convert(char&)`: `throw BadCastException()`. -/
def VarHolderImplObjectPtr.convertChar (_ : VarHolderImplObjectPtr) : Except ConvErr Unit :=
  .error .badCast

/-- `convert(bool&)`: `value = !_val.isNull() && _val->size() > 0;` — the
null check short-circuits, so a null handle yields `false` without a
dereference. -/
def VarHolderImplObjectPtr.convertBool (h : VarHolderImplObjectPtr) : Except ConvErr Bool :=
  match h.val with
  | none => .ok false
  | some o => .ok (decide (0 < o.size))

/-- `convert(std::string&)`: `_val->stringify(oss, 2)` (so `step` takes its
default `-1`); on a null handle `SharedPtr::operator->` raises a
null-pointer error. -/
def VarHolderImplObjectPtr.convertString (h : VarHolderImplObjectPtr) : Except ConvErr String :=
  match h.val with
  | none => .error .nullPointer
  | some o => .ok (o.stringify 2 (-1))

/-- `convert(DateTime&)`: `throw NotImplementedException(...)`. -/
def VarHolderImplObjectPtr.convertDateTime (_ : VarHolderImplObjectPtr) : Except ConvErr Unit :=
  .error (.notImplemented "Conversion not implemented: JSON:Object => DateTime")

/-- `convert(LocalDateTime&)`: `throw NotImplementedException(...)`. -/
def VarHolderImplObjectPtr.convertLocalDateTime (_ : VarHolderImplObjectPtr) : Except ConvErr Unit :=
  .error (.notImplemented "Conversion not implemented: JSON:Object => LocalDateTime")

/-- `convert(Timestamp&)`: `throw NotImplementedException(...)`. -/
def VarHolderImplObjectPtr.convertTimestamp (_ : VarHolderImplObjectPtr) : Except ConvErr Unit :=
  .error (.notImplemented "Conversion not implemented: JSON:Object => Timestamp")

/-! Helper lemmas. -/

/-- Zero spaces is the empty string. -/
theorem spaces_zero : spaces 0 = "" := rfl

/-- Whitespace-freeness distributes over string append. -/
theorem wsFree_append (s t : String) : wsFree (s ++ t) = (wsFree s && wsFree t) := by
  simp [wsFree, String.data_append, List.all_append]

/-- The double-quote character is not whitespace. -/
theorem wsFree_quote : wsFree "\"" = true := by decide

/-- The colon character is not whitespace. -/
theorem wsFree_colon : wsFree ":" = true := by decide

/-- The comma character is not whitespace. -/
theorem wsFree_comma : wsFree "," = true := by decide

/-- The opening brace is not whitespace. -/
theorem wsFree_lbrace : wsFree lbrace = true := by decide

/-- The closing brace is not whitespace. -/
theorem wsFree_rbrace : wsFree rbrace = true := by decide

/-- With zero indent and zero step the entry loop of `doStringify` emits
exactly the compact entry rendering of the spec. -/
theorem renderEntries_zero_eq_compact : ∀ es : List (String × Var),
    renderEntries 0 0 es = compactEntries es
  | [] => rfl
  | [kv] => by
    simp [renderEntries, compactEntries, entryChunk, spaces_zero]
  | kv :: kv2 :: rest => by
    have ih := renderEntries_zero_eq_compact (kv2 :: rest)
    simp [renderEntries, compactEntries, entryChunk, spaces_zero, ih]

/-- The compact entry rendering is whitespace-free when every key and every
rendered value is. -/
theorem wsFree_compactEntries : ∀ es : List (String × Var),
    (∀ kv ∈ es, wsFree kv.1 = true ∧ wsFree (renderValue kv.2) = true) →
    wsFree (compactEntries es) = true
  | [], _ => rfl
  | [kv], h => by
    have hk := h kv (by simp)
    simp [compactEntries, wsFree_append, hk.1, hk.2, wsFree_quote, wsFree_colon]
  | kv :: kv2 :: rest, h => by
    have hk := h kv (by simp)
    have ih := wsFree_compactEntries (kv2 :: rest) (fun x hx => h x (by simp [hx]))
    simp [compactEntries, wsFree_append, hk.1, hk.2, ih,
      wsFree_quote, wsFree_colon, wsFree_comma]

/-- The compact object rendering is whitespace-free when every key and every
rendered value is. -/
theorem wsFree_compactRender (es : List (String × Var))
    (h : ∀ kv ∈ es, wsFree kv.1 = true ∧ wsFree (renderValue kv.2) = true) :
    wsFree (compactRender es) = true := by
  simp [compactRender, wsFree_append, wsFree_lbrace, wsFree_rbrace,
    wsFree_compactEntries es h]

/-! Claim theorems. -/

/-- C1: evaluation of the code at the failing input.  In insertion-order mode,
after `set("a", 1)` the order-sequence invariant holds, but `remove("a")`
erases only the value store (`_values.erase(key)` is the whole body of
`Object::remove`), leaving the order-sequence reference to the erased entry
dangling — contrary to the claim that `remove` also erases the matching
order-sequence reference. -/
theorem remove_breaks_order_sequence :
    ((Object.empty true).set "a" (.vInt 1)).refsLive = true ∧
    (((Object.empty true).set "a" (.vInt 1)).remove "a").refsLive = false ∧
    (((Object.empty true).set "a" (.vInt 1)).remove "a").keys = ["a"] ∧
    (((Object.empty true).set "a" (.vInt 1)).remove "a").values = [] := by
  decide

/-- C2: stringifying the object holding the single property "a" with value 1,
with indentWidth 2 and step 2, writes exactly the opening brace, a newline,
two spaces, the quoted key, the padded colon separator, the value 1, a
newline, and the closing brace at zero indentation. -/
theorem stringify_golden_indent2 :
    ((Object.empty false).set "a" (.vInt 1)).stringify 2 2
      = lbrace ++ "\n" ++ spaces 2 ++ "\"a\"" ++ " : " ++ "1" ++ "\n" ++ rbrace := by
  decide

/-- C3: with the default indentWidth 0 the stringified output is exactly the
compact single-line rendering (no newline after the brace, no indentation
spaces, compact colon separator, commas between entries); consequently, when
every key and every rendered scalar value is whitespace-free, the whole
output contains no whitespace character. -/
theorem stringify_indent0_compact (o : Object) :
    o.stringify 0 (-1) = compactRender o.orderedEntries ∧
    ((∀ kv ∈ o.orderedEntries, wsFree kv.1 = true ∧ wsFree (renderValue kv.2) = true) →
      wsFree (o.stringify 0 (-1)) = true) := by
  have h1 : o.stringify 0 (-1) = compactRender o.orderedEntries := by
    simp [Object.stringify, Object.doStringify, compactRender, closingIndent,
      spaces_zero, renderEntries_zero_eq_compact]
  refine ⟨h1, fun hws => ?_⟩
  rw [h1]
  exact wsFree_compactRender o.orderedEntries hws

/-- Witness for C3 at the concrete object with properties a = 1 and b = "x". -/
theorem stringify_indent0_compact_witness :
    (((Object.empty false).set "a" (.vInt 1)).set "b" (.vStr "x")).stringify 0 (-1)
        = compactRender (((Object.empty false).set "a" (.vInt 1)).set "b"
            (.vStr "x")).orderedEntries ∧
    wsFree ((((Object.empty false).set "a" (.vInt 1)).set "b"
        (.vStr "x")).stringify 0 (-1)) = true := by
  have h := stringify_indent0_compact (((Object.empty false).set "a" (.vInt 1)).set "b"
    (.vStr "x"))
  have hws : ∀ kv ∈ ((((Object.empty false).set "a" (.vInt 1)).set "b"
      (.vStr "x")).orderedEntries),
      wsFree kv.1 = true ∧ wsFree (renderValue kv.2) = true := by
    have he : ((((Object.empty false).set "a" (.vInt 1)).set "b"
        (.vStr "x")).orderedEntries) = [("a", Var.vInt 1), ("b", Var.vStr "x")] := by
      rfl
    rw [he]
    intro kv hkv
    rcases List.mem_cons.mp hkv with hkv1 | hkv2
    · subst hkv1; exact ⟨by decide, by decide⟩
    · rcases List.mem_cons.mp hkv2 with hkv3 | hkv4
      · subst hkv3; exact ⟨by decide, by decide⟩
      · cases hkv4
  exact ⟨h.1, h.2 hws⟩

/-- C4: boolean conversion of a holder wrapping an object pointer always
succeeds, and yields true exactly when the handle is non-null and the object
has positive size; in particular an empty object converts to false. -/
theorem convertBool_true_iff (h : VarHolderImplObjectPtr) :
    ∃ b, h.convertBool = .ok b ∧ (b = true ↔ ∃ o, h.val = some o ∧ 0 < o.size) := by
  match hv : h.val with
  | none =>
    refine ⟨false, ?_, ?_⟩
    · simp [VarHolderImplObjectPtr.convertBool, hv]
    · simp [hv]
  | some o =>
    refine ⟨decide (0 < o.size), ?_, ?_⟩
    · simp [VarHolderImplObjectPtr.convertBool, hv]
    · simp [hv]

/-- C5: every signed or unsigned integer, float, double and char conversion
of a holder wrapping an object pointer fails with bad-cast, every date or
time conversion fails with not-implemented, and the two error kinds are
distinguishable. -/
theorem convert_numeric_char_date_policy (h : VarHolderImplObjectPtr) :
    h.convertInt8 = .error .badCast ∧ h.convertInt16 = .error .badCast ∧
    h.convertInt32 = .error .badCast ∧ h.convertInt64 = .error .badCast ∧
    h.convertUInt8 = .error .badCast ∧ h.convertUInt16 = .error .badCast ∧
    h.convertUInt32 = .error .badCast ∧ h.convertUInt64 = .error .badCast ∧
    h.convertFloat = .error .badCast ∧ h.convertDouble = .error .badCast ∧
    h.convertChar = .error .badCast ∧
    h.convertDateTime
      = .error (.notImplemented "Conversion not implemented: JSON:Object => DateTime") ∧
    h.convertLocalDateTime
      = .error (.notImplemented "Conversion not implemented: JSON:Object => LocalDateTime") ∧
    h.convertTimestamp
      = .error (.notImplemented "Conversion not implemented: JSON:Object => Timestamp") ∧
    (∀ s, ConvErr.notImplemented s ≠ ConvErr.badCast) := by
  refine ⟨rfl, rfl, rfl, rfl, rfl, rfl, rfl, rfl, rfl, rfl, rfl, rfl, rfl, rfl, ?_⟩
  intro s hcontra
  exact ConvErr.noConfusion hcontra

/-- C6: string conversion of a holder wrapping a non-null object succeeds and
returns exactly the 2-space-indent stringification of the object (the source
call `stringify(oss, 2)` leaves `step` at its sentinel default, which
resolves to the caller indent 2). -/
theorem convertString_is_indent2_stringify (o : Object) :
    VarHolderImplObjectPtr.convertString ⟨some o⟩ = .ok (o.stringify 2 (-1)) ∧
    o.stringify 2 (-1) = o.doStringify 2 2 := by
  exact ⟨rfl, rfl⟩

/-- C7: `isNull` is true exactly when the key is absent from the value store
or the stored value is empty; the two cases produce the identical observable
result. -/
theorem isNull_iff_absent_or_empty (o : Object) (k : String) :
    o.isNull k = true ↔
      (List.lookup k o.values = none ∨
        ∃ v, List.lookup k o.values = some v ∧ v.isEmpty = true) := by
  cases hlk : List.lookup k o.values with
  | none => simp [Object.isNull, hlk]
  | some v => simp [Object.isNull, hlk]

/-- C8: `optValue` returns the default when the key is absent, when the
stored value is empty, and when the conversion fails (the failure is
swallowed, the function is total); otherwise it returns the converted stored
value. -/
theorem optValue_default_policy {T : Type} (o : Object) (k : String) (defv : T)
    (conv : Var → Except ConvErr T) :
    (List.lookup k o.values = none → o.optValue k defv conv = defv) ∧
    (∀ v, List.lookup k o.values = some v → v.isEmpty = true →
      o.optValue k defv conv = defv) ∧
    (∀ v e, List.lookup k o.values = some v → v.isEmpty = false → conv v = .error e →
      o.optValue k defv conv = defv) ∧
    (∀ v t, List.lookup k o.values = some v → v.isEmpty = false → conv v = .ok t →
      o.optValue k defv conv = t) := by
  refine ⟨fun h0 => ?_, fun v h1 h2 => ?_, fun v e h1 h2 h3 => ?_, fun v t h1 h2 h3 => ?_⟩
  · simp [Object.optValue, h0]
  · simp [Object.optValue, h1, h2]
  · simp [Object.optValue, h1, h2, h3]
  · simp [Object.optValue, h1, h2, h3]

/-- Witness for C8: a stored string property does not convert to an integer,
so the default 42 is returned. -/
theorem optValue_default_policy_witness :
    ((Object.empty false).set "s" (.vStr "x")).optValue "s" (42 : Int) varConvertInt = 42 :=
  (optValue_default_policy ((Object.empty false).set "s" (.vStr "x")) "s" (42 : Int)
      varConvertInt).2.2.1 (.vStr "x") .badCast (by decide) (by decide) rfl

/-- C9 counterexample: with indentWidth 1 and step 2 the closing brace keeps
one space of indentation (the subtraction is skipped, not clamped to zero),
so the output differs from the zero-indent closing brace the claim predicts. -/
theorem closing_brace_not_clamped_to_zero :
    ((Object.empty false).set "a" (.vInt 1)).stringify 1 2
        = lbrace ++ "\n" ++ spaces 1 ++ "\"a\"" ++ " : " ++ "1" ++ "\n" ++ spaces 1 ++ rbrace ∧
    ((Object.empty false).set "a" (.vInt 1)).stringify 1 2
        ≠ lbrace ++ "\n" ++ spaces 1 ++ "\"a\"" ++ " : " ++ "1" ++ "\n" ++ spaces 0 ++ rbrace := by
  decide

/-- C9 as amended: for indentWidth positive and step non-negative, the output
ends with the closing brace indented by indentWidth minus step spaces when
indentWidth is at least step, and by the unchanged indentWidth spaces
otherwise (never negative, but not clamped to zero). -/
theorem closing_brace_indent (o : Object) (indent : Nat) (step : Int)
    (h0 : 0 < indent) (h1 : 0 ≤ step) :
    ∃ body, o.stringify indent step
      = body ++ spaces (if step.toNat ≤ indent then indent - step.toNat else indent)
          ++ rbrace := by
  refine ⟨lbrace ++ "\n" ++ renderEntries indent step o.orderedEntries, ?_⟩
  have hne : step ≠ -1 := by omega
  have hstep : (if step == -1 then (indent : Int) else step) = step := by
    simp [hne]
  have hc : closingIndent indent step
      = if step.toNat ≤ indent then indent - step.toNat else indent := by
    unfold closingIndent
    by_cases h2 : step.toNat ≤ indent
    · rw [if_pos ⟨h1, h2⟩, if_pos h2]
    · rw [if_neg (fun hand => h2 hand.2), if_neg h2]
  unfold Object.stringify
  rw [hstep]
  unfold Object.doStringify
  rw [hc, if_pos h0]

/-- Witness for C9 as amended, at indentWidth 3 and step 2. -/
theorem closing_brace_indent_witness :
    ∃ body, ((Object.empty false).set "a" (.vInt 1)).stringify 3 2
      = body ++ spaces (if (2 : Int).toNat ≤ 3 then 3 - (2 : Int).toNat else 3)
          ++ rbrace :=
  closing_brace_indent ((Object.empty false).set "a" (.vInt 1)) 3 2 (by decide) (by decide)

/-- C10: boolean conversion of the holder with the null handle yields false
(the null check short-circuits before any dereference), and boolean
conversion succeeds for every holder state. -/
theorem convertBool_null_handle :
    VarHolderImplObjectPtr.convertBool ⟨none⟩ = .ok false ∧
    ∀ h : VarHolderImplObjectPtr, ∃ b, h.convertBool = .ok b := by
  refine ⟨rfl, fun h => ?_⟩
  match hv : h.val with
  | none => exact ⟨false, by simp [VarHolderImplObjectPtr.convertBool, hv]⟩
  | some o => exact ⟨decide (0 < o.size), by simp [VarHolderImplObjectPtr.convertBool, hv]⟩
